import Mathlib

/-!
Verification development for the inverse-kinematics optimization driver
(`src/ikpy/inverse_kinematics.py`).

The Python module builds a scalar objective out of a position error, an
optional orientation error and an optional regularization term, reduces the
problem to the chain's active joints, and drives an external bound-constrained
optimizer.  Real-valued numpy quantities are embedded as `ℝ`; joint vectors as
`List ℝ`; the 4×4 homogeneous target/computed frames as `Fin 4 → Fin 4 → ℝ`;
fallible numpy operations return `Option`.

The chain collaborator (`Link`, `Chain.active_to_full`, `Chain.active_from_full`,
`Chain.first_active_joint`) is not part of the reviewed source; those
definitions are modelled from the specification and are marked as such.
-/

/-- A 4×4 homogeneous frame (rotation block in rows/columns 0–2, translation in
column 3), as produced by the forward-kinematics collaborator and accepted as
`target_frame`. -/
abbrev Frame := Fin 4 → Fin 4 → ℝ

/-- Euclidean norm of a 3-vector: `np.linalg.norm` applied to a 1-D array of
length 3. -/
noncomputable def norm3 (v : Fin 3 → ℝ) : ℝ :=
  Real.sqrt (∑ i : Fin 3, v i ^ 2)

/-- Frobenius norm of a 3×3 block: `np.linalg.norm` applied to a 2-D array
(numpy's default matrix norm). -/
noncomputable def normF (m : Fin 3 → Fin 3 → ℝ) : ℝ :=
  Real.sqrt (∑ i : Fin 3, ∑ j : Fin 3, m i j ^ 2)

/-- Euclidean norm of a joint-space vector given as a list:
`np.linalg.norm` applied to a 1-D array. -/
noncomputable def norm_l2 (v : List ℝ) : ℝ :=
  Real.sqrt ((v.map (fun t => t ^ 2)).sum)

/-- numpy elementwise subtraction of two 1-D arrays: defined when the shapes
match, broadcast when either operand has length 1, and a shape error
(`none`) otherwise. -/
noncomputable def np_sub (a b : List ℝ) : Option (List ℝ) :=
  if a.length = b.length then some (List.zipWith (fun u v => u - v) a b)
  else
    match a, b with
    | [u], _ => some (b.map (fun v => u - v))
    | _, [v] => some (a.map (fun u => u - v))
    | _, _ => none

/-- Modelled from the spec (§3 Data model): a chain link carries an angle
bound pair — either end may be the open "no bound" sentinel, represented as
`none` — and a flag indicating whether the link is active (optimizable) or
fixed. The `Link` class itself is outside the reviewed source. -/
structure Link where
  bounds : Option ℝ × Option ℝ
  is_active : Bool

/-- Modelled from the spec (§3 Data model): a chain is an ordered sequence of
links and owns the forward-kinematics computation mapping a full joint vector
to a 4×4 pose.  The `Chain` class itself is outside the reviewed source; its
forward kinematics is an external collaborator, kept abstract as a field. -/
structure Chain where
  links : List Link
  forward_kinematics : List ℝ → Frame

/-- `np.compress(mask, v)`: keep the entries of `v` whose mask entry is true,
preserving order (truncating at the shorter of the two lists, as numpy does
over the common length). -/
def compress {α : Type} : List Bool → List α → List α
  | true :: ms, v :: vs => v :: compress ms vs
  | false :: ms, _ :: vs => compress ms vs
  | _, [] => []
  | [], _ => []

/-- `np.place(full, mask, active)`: rebuild `full` with the mask-true
positions replaced, in order, by the entries of `active` (keeping the original
entry if `active` is exhausted). -/
def place {α : Type} : List Bool → List α → List α → List α
  | _, _, [] => []
  | [], _, f => f
  | true :: ms, a :: as, _ :: fs => a :: place ms as fs
  | true :: ms, [], f :: fs => f :: place ms [] fs
  | false :: ms, as, f :: fs => f :: place ms as fs

/-- Modelled from the spec (§3): the mask of active-link flags, in link
order. -/
def Chain.active_links_mask (c : Chain) : List Bool :=
  c.links.map (fun l => l.is_active)

/-- Modelled from the spec (§4.1 ParameterSpaceMapper, `reduce`): drop all
non-active entries of a full per-link sequence, preserving the relative order
of the remaining entries.  The method `chain.active_from_full` is outside the
reviewed source. -/
def Chain.active_from_full {α : Type} (c : Chain) (v : List α) : List α :=
  compress c.active_links_mask v

/-- Modelled from the spec (§4.1 ParameterSpaceMapper, `merge`): produce a
full vector identical to `full` except that active-link positions are
replaced, in order, by the entries of `active`.  The method
`chain.active_to_full` is outside the reviewed source. -/
def Chain.active_to_full {α : Type} (c : Chain) (active full : List α) : List α :=
  place c.active_links_mask active full

/-- Modelled from the spec (§3 Chain: "an index marking the first active
link"): the index of the first active link of the chain.  The attribute
`chain.first_active_joint` is outside the reviewed source. -/
def Chain.first_active_joint (c : Chain) : ℕ :=
  c.links.findIdx (fun l => l.is_active)

/-- `ORIENTATION_COEFF = 1.`, the module-level orientation weighting
constant. -/
noncomputable def ORIENTATION_COEFF : ℝ := 1

/-- `optimize_target_function`: merge the active vector into the starting
configuration, run forward kinematics once, and measure the Euclidean distance
between the computed frame's translation (`[:3, -1]`) and the target
translation.  Returns `((y, distance), n)` where `n` counts the
forward-kinematics invocations this evaluation performs (the source calls the
collaborator exactly once here). -/
noncomputable def optimize_target_function (c : Chain) (target_frame : Frame)
    (starting_nodes_angles x : List ℝ) : (List ℝ × ℝ) × ℕ :=
  let y := c.active_to_full x starting_nodes_angles
  let squared_distance_to_target :=
    norm3 (fun i => c.forward_kinematics y i.castSucc 3 - target_frame i.castSucc 3)
  ((y, squared_distance_to_target), 1)

/-- `get_orientation` in the `orientation_mode == "X"` branch: rotation
column 0 (`[:3, 0]`) of the computed frame, with its forward-kinematics
invocation count. -/
noncomputable def get_orientation_X (c : Chain) (y : List ℝ) : (Fin 3 → ℝ) × ℕ :=
  (fun i => c.forward_kinematics y i.castSucc 0, 1)

/-- `get_orientation` in the `orientation_mode == "Y"` branch: rotation
column 1 of the computed frame. -/
noncomputable def get_orientation_Y (c : Chain) (y : List ℝ) : (Fin 3 → ℝ) × ℕ :=
  (fun i => c.forward_kinematics y i.castSucc 1, 1)

/-- `get_orientation` in the `orientation_mode == "Z"` branch: rotation
column 2 of the computed frame. -/
noncomputable def get_orientation_Z (c : Chain) (y : List ℝ) : (Fin 3 → ℝ) × ℕ :=
  (fun i => c.forward_kinematics y i.castSucc 2, 1)

/-- `get_orientation` in the `orientation_mode == "all"` branch: the full 3×3
rotation block (`[:3, :3]`) of the computed frame. -/
noncomputable def get_orientation_all (c : Chain) (y : List ℝ) : (Fin 3 → Fin 3 → ℝ) × ℕ :=
  (fun i j => c.forward_kinematics y i.castSucc j.castSucc, 1)

/-- `optimize_function` when `orientation_mode is None`: the bare distance to
target.  Second component: forward-kinematics invocations per evaluation. -/
noncomputable def optimize_function_none (c : Chain) (target_frame : Frame) :
    List ℝ → List ℝ → ℝ × ℕ :=
  fun starting_nodes_angles x =>
    let r := optimize_target_function c target_frame starting_nodes_angles x
    (r.1.2, r.2)

/-- `optimize_function` for `orientation_mode == "X"`: distance to target plus
`ORIENTATION_COEFF` times the Euclidean norm of the difference between the
computed frame's rotation column 0 and the target's (`orientation =
target_frame[:3, 0]`). -/
noncomputable def optimize_function_X (c : Chain) (target_frame : Frame) :
    List ℝ → List ℝ → ℝ × ℕ :=
  fun starting_nodes_angles x =>
    let r := optimize_target_function c target_frame starting_nodes_angles x
    let g := get_orientation_X c r.1.1
    (r.1.2 + ORIENTATION_COEFF * norm3 (fun i => g.1 i - target_frame i.castSucc 0),
      r.2 + g.2)

/-- `optimize_function` for `orientation_mode == "Y"`. -/
noncomputable def optimize_function_Y (c : Chain) (target_frame : Frame) :
    List ℝ → List ℝ → ℝ × ℕ :=
  fun starting_nodes_angles x =>
    let r := optimize_target_function c target_frame starting_nodes_angles x
    let g := get_orientation_Y c r.1.1
    (r.1.2 + ORIENTATION_COEFF * norm3 (fun i => g.1 i - target_frame i.castSucc 1),
      r.2 + g.2)

/-- `optimize_function` for `orientation_mode == "Z"`. -/
noncomputable def optimize_function_Z (c : Chain) (target_frame : Frame) :
    List ℝ → List ℝ → ℝ × ℕ :=
  fun starting_nodes_angles x =>
    let r := optimize_target_function c target_frame starting_nodes_angles x
    let g := get_orientation_Z c r.1.1
    (r.1.2 + ORIENTATION_COEFF * norm3 (fun i => g.1 i - target_frame i.castSucc 2),
      r.2 + g.2)

/-- `optimize_function` for `orientation_mode == "all"`: distance to target
plus `ORIENTATION_COEFF` times the Frobenius norm of the difference between
the computed frame's 3×3 rotation block and the target's (`orientation =
target_frame[:3, :3]`). -/
noncomputable def optimize_function_all (c : Chain) (target_frame : Frame) :
    List ℝ → List ℝ → ℝ × ℕ :=
  fun starting_nodes_angles x =>
    let r := optimize_target_function c target_frame starting_nodes_angles x
    let g := get_orientation_all c r.1.1
    (r.1.2 + ORIENTATION_COEFF *
        normF (fun i j => g.1 i j - target_frame i.castSucc j.castSucc),
      r.2 + g.2)

/-- The `if orientation_mode is None ... elif ... else raise` dispatch of
`inverse_kinematic_optimization`: pick the objective for a recognized
orientation mode, or `none` for the unknown-orientation-mode error path. -/
noncomputable def optimize_function (c : Chain) (target_frame : Frame) :
    Option String → Option (List ℝ → List ℝ → ℝ × ℕ)
  | none => some (optimize_function_none c target_frame)
  | some s =>
    if s = "X" then some (optimize_function_X c target_frame)
    else if s = "Y" then some (optimize_function_Y c target_frame)
    else if s = "Z" then some (optimize_function_Z c target_frame)
    else if s = "all" then some (optimize_function_all c target_frame)
    else none

/-- `optimize_total`: with a regularization parameter, add
`regularization_parameter * np.linalg.norm(x - starting_nodes_angles[chain.first_active_joint:])`
to the base objective (the subtraction is evaluated first and fails on a
shape mismatch, before any forward kinematics runs); without one, the base
objective unchanged. -/
noncomputable def optimize_total (c : Chain) (starting_nodes_angles : List ℝ)
    (regularization_parameter : Option ℝ) (f : List ℝ → List ℝ → ℝ × ℕ) :
    List ℝ → Option ℝ :=
  match regularization_parameter with
  | none => fun x => some (f starting_nodes_angles x).1
  | some lam => fun x =>
    match np_sub x (starting_nodes_angles.drop c.first_active_joint) with
    | none => none
    | some d => some ((f starting_nodes_angles x).1 + lam * norm_l2 d)

/-- `real_bounds`: collect `link.bounds` from every link of the chain, then
reduce to the active subset with `chain.active_from_full`. -/
def real_bounds (c : Chain) : List (Option ℝ × Option ℝ) :=
  c.active_from_full (c.links.map (fun l => l.bounds))

/-- The two argument-validation failures of `inverse_kinematic_optimization`:
the `ValueError` for an unknown orientation mode (carrying the offending mode
string) and the `ValueError` for a missing starting configuration. -/
inductive IKError where
  | unknownOrientationMode : String → IKError
  | missingStartingNodesAngles : IKError
deriving DecidableEq

/-- `inverse_kinematic_optimization`, parametrized by the external bounded
optimizer `minimize` (consuming the objective, the initial active guess, the
reduced bounds and the optional iteration cap, and returning its solution
active vector; the iteration count is used only for an out-of-scope log line).
The orientation-mode dispatch happens first and raises for an unrecognized
mode; then the missing-starting-configuration check; then the optimizer runs
and its solution is merged back into the starting configuration. -/
noncomputable def inverse_kinematic_optimization
    (minimize : (List ℝ → Option ℝ) → List ℝ → List (Option ℝ × Option ℝ) → Option ℕ → List ℝ)
    (c : Chain) (target_frame : Frame) (starting_nodes_angles : Option (List ℝ))
    (regularization_parameter : Option ℝ) (max_iter : Option ℕ)
    (orientation_mode : Option String) : Except IKError (List ℝ) :=
  match optimize_function c target_frame orientation_mode with
  | none => Except.error (IKError.unknownOrientationMode (orientation_mode.getD ""))
  | some objf =>
    match starting_nodes_angles with
    | none => Except.error IKError.missingStartingNodesAngles
    | some starting =>
      Except.ok (c.active_to_full
        (minimize (optimize_total c starting regularization_parameter objf)
          (c.active_from_full starting) (real_bounds c) max_iter)
        starting)

/-- The value of the composed base objective (before regularization) at an
active vector `x`, when the orientation mode is recognized. -/
noncomputable def base_value (c : Chain) (target_frame : Frame) (mode : Option String)
    (starting x : List ℝ) : Option ℝ :=
  (optimize_function c target_frame mode).map (fun f => (f starting x).1)

/-- The number of forward-kinematics invocations one evaluation of the base
objective performs, when the orientation mode is recognized. -/
noncomputable def fk_calls (c : Chain) (target_frame : Frame) (mode : Option String)
    (starting x : List ℝ) : Option ℕ :=
  (optimize_function c target_frame mode).map (fun f => (f starting x).2)

/-- The position error of the source: the Euclidean distance between the
computed frame's translation and the target translation. -/
noncomputable def position_error (c : Chain) (target_frame : Frame)
    (starting x : List ℝ) : ℝ :=
  (optimize_target_function c target_frame starting x).1.2

/-- The orientation metric of the specification's mode table (§4.3): per
mode, the Euclidean norm of the difference of the selected rotation column of
the computed and target frames, the Frobenius norm of the difference of the
full rotation blocks for mode `all`, and `0` when the mode is `None`.
Stated from the spec's words, for comparison with the source objective. -/
noncomputable def spec_orientation_error (c : Chain) (target_frame : Frame)
    (mode : Option String) (starting x : List ℝ) : ℝ :=
  let pose := c.forward_kinematics (c.active_to_full x starting)
  match mode with
  | none => 0
  | some s =>
    if s = "X" then norm3 (fun i => pose i.castSucc 0 - target_frame i.castSucc 0)
    else if s = "Y" then norm3 (fun i => pose i.castSucc 1 - target_frame i.castSucc 1)
    else if s = "Z" then norm3 (fun i => pose i.castSucc 2 - target_frame i.castSucc 2)
    else if s = "all" then
      normF (fun i j => pose i.castSucc j.castSucc - target_frame i.castSucc j.castSucc)
    else 0

/-- The orientation modes the dispatch of `inverse_kinematic_optimization`
recognizes: `None` and the exact strings `"X"`, `"Y"`, `"Z"`, `"all"`. -/
def recognized_mode : Option String → Bool
  | none => true
  | some s =>
    if s = "X" then true
    else if s = "Y" then true
    else if s = "Z" then true
    else if s = "all" then true
    else false

/-! ### Helper lemmas on the parameter-space reduction -/

theorem place_compress {α : Type} (m : List Bool) (f : List α) :
    place m (compress m f) f = f := by
  induction m generalizing f with
  | nil => cases f <;> rfl
  | cons b ms ih =>
    cases f with
    | nil => cases b <;> rfl
    | cons v vs =>
      cases b with
      | true => simp only [compress, place, ih]
      | false => simp only [compress, place, ih]

theorem compress_length_eq {α β : Type} (m : List Bool) (v : List α) (w : List β)
    (h : v.length = w.length) : (compress m v).length = (compress m w).length := by
  induction m generalizing v w with
  | nil => cases v <;> cases w <;> simp_all [compress]
  | cons b ms ih =>
    cases v with
    | nil => cases w with
      | nil => cases b <;> rfl
      | cons y ws => simp at h
    | cons x vs =>
      cases w with
      | nil => simp at h
      | cons y ws =>
        simp only [List.length_cons, Nat.succ.injEq] at h
        cases b with
        | true => simp only [compress, List.length_cons, ih vs ws h]
        | false => simp only [compress, ih vs ws h]

theorem compress_place {α : Type} (m : List Bool) (a f : List α)
    (hf : f.length = m.length) (ha : a.length = (compress m f).length) :
    compress m (place m a f) = a := by
  induction m generalizing a f with
  | nil =>
    cases f with
    | nil =>
      cases a with
      | nil => rfl
      | cons x xs => simp [compress] at ha
    | cons v vs => simp at hf
  | cons b ms ih =>
    cases f with
    | nil => simp at hf
    | cons v vs =>
      simp only [List.length_cons, Nat.succ.injEq] at hf
      cases b with
      | true =>
        cases a with
        | nil => simp [compress] at ha
        | cons x xs =>
          simp only [compress, List.length_cons, Nat.succ.injEq] at ha
          simp only [place, compress, List.cons.injEq, true_and]
          exact ih xs vs hf ha
      | false =>
        simp only [compress] at ha
        simp only [place, compress]
        exact ih a vs hf ha

theorem compress_zip {α β : Type} (m : List Bool) (v : List α) (w : List β) :
    compress m (List.zip v w) = List.zip (compress m v) (compress m w) := by
  induction m generalizing v w with
  | nil => cases v <;> cases w <;> rfl
  | cons b ms ih =>
    cases v with
    | nil => cases b <;> rfl
    | cons x vs =>
      cases w with
      | nil => cases b <;> simp [compress, List.zip]
      | cons y ws =>
        cases b with
        | true =>
          simp only [List.zip_cons_cons, compress]
          exact congrArg (List.cons (x, y)) (ih vs ws)
        | false =>
          simp only [List.zip_cons_cons, compress]
          exact ih vs ws

theorem compress_map_mem {α β : Type} (l : List α) (q : α → Bool) (g : α → β)
    (x : β) (hx : x ∈ compress (l.map q) (l.map g)) :
    ∃ a ∈ l, q a = true ∧ g a = x := by
  induction l with
  | nil => simp [compress] at hx
  | cons a as ih =>
    by_cases hq : q a = true
    · simp only [List.map_cons, hq, compress] at hx
      rcases List.mem_cons.mp hx with h | h
      · exact ⟨a, List.mem_cons_self a as, hq, h.symm⟩
      · obtain ⟨b, hb, hqb, hgb⟩ := ih h
        exact ⟨b, List.mem_cons_of_mem a hb, hqb, hgb⟩
    · simp only [List.map_cons, Bool.of_not_eq_true hq, compress] at hx
      obtain ⟨b, hb, hqb, hgb⟩ := ih hx
      exact ⟨b, List.mem_cons_of_mem a hb, hqb, hgb⟩

theorem optimize_function_eq_none_iff (c : Chain) (target_frame : Frame)
    (mode : Option String) :
    optimize_function c target_frame mode = none ↔ recognized_mode mode = false := by
  cases mode with
  | none => simp [optimize_function, recognized_mode]
  | some s =>
    by_cases h1 : s = "X"
    · simp [optimize_function, recognized_mode, h1]
    · by_cases h2 : s = "Y"
      · simp [optimize_function, recognized_mode, h1, h2]
      · by_cases h3 : s = "Z"
        · simp [optimize_function, recognized_mode, h1, h2, h3]
        · by_cases h4 : s = "all"
          · simp [optimize_function, recognized_mode, h1, h2, h3, h4]
          · simp [optimize_function, recognized_mode, h1, h2, h3, h4]

theorem optimize_function_eq_some (c : Chain) (target_frame : Frame)
    (mode : Option String) (h : recognized_mode mode = true) :
    ∃ objf, optimize_function c target_frame mode = some objf := by
  cases hf : optimize_function c target_frame mode with
  | none =>
    rw [optimize_function_eq_none_iff] at hf
    rw [h] at hf
    exact absurd hf (by simp)
  | some objf => exact ⟨objf, rfl⟩

/-! ### Concrete instances used by witnesses and counterexamples -/

/-- A single unbounded active link. -/
noncomputable def demoLink : Link :=
  { bounds := (none, none), is_active := true }

/-- A fixed (non-active) unbounded link. -/
noncomputable def demoFixedLink : Link :=
  { bounds := (none, none), is_active := false }

/-- The all-zero 4×4 frame, used as a target frame. -/
noncomputable def demoFrame : Frame := fun _ _ => 0

/-- A frame whose translation is `(2, 0, 0)` and whose other entries vanish. -/
noncomputable def demoPose : Frame := fun i j =>
  if i.val = 0 ∧ j.val = 3 then 2 else 0

/-- A one-link chain whose forward kinematics always lands at `demoPose`. -/
noncomputable def demoChain : Chain :=
  { links := [demoLink], forward_kinematics := fun _ => demoPose }

/-- A starting full configuration for `demoChain`. -/
noncomputable def demoStart : List ℝ := [0]

/-- An active vector for `demoChain`. -/
noncomputable def demoX : List ℝ := [0]

/-- A trivial external optimizer: returns its initial guess untouched. -/
noncomputable def demoMinimize :
    (List ℝ → Option ℝ) → List ℝ → List (Option ℝ × Option ℝ) → Option ℕ → List ℝ :=
  fun _ initial _ _ => initial

/-- A three-link chain whose last link is fixed: the active mask is
`[true, true, false]`, so an inactive link follows the first active one. -/
noncomputable def regChain : Chain :=
  { links := [demoLink, demoLink, demoFixedLink], forward_kinematics := fun _ => demoFrame }

/-- A starting full configuration for `regChain` (the fixed link at angle 5). -/
noncomputable def regStart : List ℝ := [0, 0, 5]

/-- An active vector for `regChain` (length 2 = number of active links). -/
noncomputable def regX : List ℝ := [1, 2]

/-! ### C6: round-trip identities of the parameter-space reduction and merge -/

/-- C6: for a full vector `f` of the chain's length, merging its own reduction
back into it is the identity; and reducing the merge of an active vector `a`
(of the reduced-bounds length, as any vector within the reduced bounds is)
into `f` returns `a` unchanged. -/
theorem C6_round_trip (c : Chain) (f a : List ℝ)
    (hf : f.length = c.links.length)
    (ha : a.length = (real_bounds c).length) :
    c.active_to_full (c.active_from_full f) f = f ∧
    c.active_from_full (c.active_to_full a f) = a := by
  constructor
  · exact place_compress c.active_links_mask f
  · have hmask : c.active_links_mask.length = c.links.length := by
      simp [Chain.active_links_mask]
    have hblen : (c.links.map (fun l => l.bounds)).length = f.length := by
      simp [hf]
    have hlen : (real_bounds c).length = (compress c.active_links_mask f).length := by
      unfold real_bounds Chain.active_from_full
      exact compress_length_eq c.active_links_mask _ f hblen
    exact compress_place c.active_links_mask a f (hf.trans hmask.symm) (ha.trans hlen)

/-- C6 witness: the round trips evaluated on the one-link demo chain. -/
theorem C6_round_trip_witness :
    ([(0 : ℝ)].length = demoChain.links.length ∧
      [(3 : ℝ)].length = (real_bounds demoChain).length) ∧
    (demoChain.active_to_full (demoChain.active_from_full [(0 : ℝ)]) [(0 : ℝ)] = [(0 : ℝ)] ∧
      demoChain.active_from_full (demoChain.active_to_full [(3 : ℝ)] [(0 : ℝ)]) = [(3 : ℝ)]) :=
  ⟨⟨rfl, rfl⟩, C6_round_trip demoChain [(0 : ℝ)] [(3 : ℝ)] rfl rfl⟩

/-! ### C7: the reduced bounds passed to the optimizer -/

/-- C7: the bounds handed to the optimizer are the per-link bound pairs
reduced by the same active-subset rule as the joint vectors: they are exactly
as long as the reduced active vector of any full configuration `f`, they pair
up with it link by link (reducing the zipped list equals zipping the reduced
lists), and every bound pair is some active link's own bound pair, passed
through unchanged — in particular a link's open `none` sentinel is preserved,
never turned into a zero. -/
theorem C7_reduced_bounds (c : Chain) (f : List ℝ)
    (hf : f.length = c.links.length) :
    (real_bounds c).length = (c.active_from_full f).length ∧
    c.active_from_full (List.zip f (c.links.map (fun l => l.bounds))) =
      List.zip (c.active_from_full f) (real_bounds c) ∧
    ∀ p ∈ real_bounds c, ∃ l ∈ c.links, l.is_active = true ∧ l.bounds = p := by
  refine ⟨?_, ?_, ?_⟩
  · unfold real_bounds Chain.active_from_full
    exact compress_length_eq c.active_links_mask _ f (by simp [hf])
  · unfold real_bounds Chain.active_from_full
    exact compress_zip c.active_links_mask f (c.links.map (fun l => l.bounds))
  · intro p hp
    unfold real_bounds Chain.active_from_full Chain.active_links_mask at hp
    exact compress_map_mem c.links (fun l => l.is_active) (fun l => l.bounds) p hp

/-- C7 witness: the reduced bounds of the demo chain relate to the reduced
configuration as stated. -/
theorem C7_reduced_bounds_witness :
    [(0 : ℝ)].length = demoChain.links.length ∧
    ((real_bounds demoChain).length = (demoChain.active_from_full [(0 : ℝ)]).length ∧
      demoChain.active_from_full (List.zip [(0 : ℝ)] (demoChain.links.map (fun l => l.bounds))) =
        List.zip (demoChain.active_from_full [(0 : ℝ)]) (real_bounds demoChain) ∧
      ∀ p ∈ real_bounds demoChain, ∃ l ∈ demoChain.links, l.is_active = true ∧ l.bounds = p) :=
  ⟨rfl, C7_reduced_bounds demoChain [(0 : ℝ)] rfl⟩

/-! ### Unfolding lemmas for the solve driver -/

theorem ik_eq_of_objf (minimize : (List ℝ → Option ℝ) → List ℝ → List (Option ℝ × Option ℝ) → Option ℕ → List ℝ)
    (c : Chain) (target_frame : Frame) (starting : List ℝ)
    (reg : Option ℝ) (max_iter : Option ℕ) (mode : Option String)
    (objf : List ℝ → List ℝ → ℝ × ℕ)
    (hf : optimize_function c target_frame mode = some objf) :
    inverse_kinematic_optimization minimize c target_frame (some starting) reg max_iter mode =
      Except.ok (c.active_to_full
        (minimize (optimize_total c starting reg objf)
          (c.active_from_full starting) (real_bounds c) max_iter)
        starting) := by
  unfold inverse_kinematic_optimization
  rw [hf]

theorem ik_eq_of_missing (minimize : (List ℝ → Option ℝ) → List ℝ → List (Option ℝ × Option ℝ) → Option ℕ → List ℝ)
    (c : Chain) (target_frame : Frame)
    (reg : Option ℝ) (max_iter : Option ℕ) (mode : Option String)
    (objf : List ℝ → List ℝ → ℝ × ℕ)
    (hf : optimize_function c target_frame mode = some objf) :
    inverse_kinematic_optimization minimize c target_frame none reg max_iter mode =
      Except.error IKError.missingStartingNodesAngles := by
  unfold inverse_kinematic_optimization
  rw [hf]

theorem ik_eq_of_unknown (minimize : (List ℝ → Option ℝ) → List ℝ → List (Option ℝ × Option ℝ) → Option ℕ → List ℝ)
    (c : Chain) (target_frame : Frame) (startingOpt : Option (List ℝ))
    (reg : Option ℝ) (max_iter : Option ℕ) (mode : Option String)
    (hf : optimize_function c target_frame mode = none) :
    inverse_kinematic_optimization minimize c target_frame startingOpt reg max_iter mode =
      Except.error (IKError.unknownOrientationMode (mode.getD "")) := by
  unfold inverse_kinematic_optimization
  rw [hf]

/-! ### C4: the returned solution is the optimizer result merged into the
starting configuration -/

/-- C4: every successful call returns `active_to_full` (the merge) of the
optimizer's returned active vector into the starting full configuration; the
starting configuration itself is an immutable input of the purely functional
model and appears unchanged as the merge's second argument. -/
theorem C4_returns_merge
    (minimize : (List ℝ → Option ℝ) → List ℝ → List (Option ℝ × Option ℝ) → Option ℕ → List ℝ)
    (c : Chain) (target_frame : Frame) (starting : List ℝ)
    (reg : Option ℝ) (max_iter : Option ℕ) (mode : Option String)
    (objf : List ℝ → List ℝ → ℝ × ℕ)
    (hf : optimize_function c target_frame mode = some objf) :
    inverse_kinematic_optimization minimize c target_frame (some starting) reg max_iter mode =
      Except.ok (c.active_to_full
        (minimize (optimize_total c starting reg objf)
          (c.active_from_full starting) (real_bounds c) max_iter)
        starting) :=
  ik_eq_of_objf minimize c target_frame starting reg max_iter mode objf hf

/-- C4 witness: the demo solve returns the merged optimizer result. -/
theorem C4_returns_merge_witness :
    optimize_function demoChain demoFrame none = some (optimize_function_none demoChain demoFrame) ∧
    inverse_kinematic_optimization demoMinimize demoChain demoFrame (some demoStart) none none none =
      Except.ok (demoChain.active_to_full
        (demoMinimize (optimize_total demoChain demoStart none (optimize_function_none demoChain demoFrame))
          (demoChain.active_from_full demoStart) (real_bounds demoChain) none)
        demoStart) :=
  ⟨rfl, C4_returns_merge demoMinimize demoChain demoFrame demoStart none none none
    (optimize_function_none demoChain demoFrame) rfl⟩

/-! ### C5: argument validation happens before the optimizer and the
objective ever run -/

/-- C5: whenever the starting configuration is absent or the orientation mode
is unrecognized, the call fails with one fixed `IKError` that depends neither
on the external optimizer nor on the forward-kinematics collaborator — so the
optimizer is never invoked and no objective evaluation (hence no
forward-kinematics call) occurs before the error. -/
theorem C5_error_before_optimizer (c : Chain) (target_frame : Frame)
    (startingOpt : Option (List ℝ)) (reg : Option ℝ) (max_iter : Option ℕ)
    (mode : Option String)
    (h : startingOpt = none ∨ recognized_mode mode = false) :
    ∃ e : IKError,
      ∀ (minimize : (List ℝ → Option ℝ) → List ℝ → List (Option ℝ × Option ℝ) → Option ℕ → List ℝ)
        (fk : List ℝ → Frame),
        inverse_kinematic_optimization minimize (Chain.mk c.links fk) target_frame
          startingOpt reg max_iter mode = Except.error e := by
  by_cases hm : recognized_mode mode = true
  · have hstart : startingOpt = none := by
      rcases h with h | h
      · exact h
      · rw [hm] at h
        exact absurd h (by simp)
    refine ⟨IKError.missingStartingNodesAngles, fun minimize fk => ?_⟩
    obtain ⟨objf, hobj⟩ :=
      optimize_function_eq_some (Chain.mk c.links fk) target_frame mode hm
    rw [hstart]
    exact ik_eq_of_missing minimize (Chain.mk c.links fk) target_frame reg max_iter mode objf hobj
  · refine ⟨IKError.unknownOrientationMode (mode.getD ""), fun minimize fk => ?_⟩
    have hnone : optimize_function (Chain.mk c.links fk) target_frame mode = none := by
      rw [optimize_function_eq_none_iff]
      exact Bool.of_not_eq_true hm
    exact ik_eq_of_unknown minimize (Chain.mk c.links fk) target_frame startingOpt reg max_iter mode hnone

/-- C5 witness: with the starting configuration absent the demo call fails
with the same error for every optimizer and every forward kinematics. -/
theorem C5_error_before_optimizer_witness :
    ((none : Option (List ℝ)) = none ∨ recognized_mode (some "X") = false) ∧
    ∃ e : IKError,
      ∀ (minimize : (List ℝ → Option ℝ) → List ℝ → List (Option ℝ × Option ℝ) → Option ℕ → List ℝ)
        (fk : List ℝ → Frame),
        inverse_kinematic_optimization minimize (Chain.mk demoChain.links fk) demoFrame
          none none none (some "X") = Except.error e :=
  ⟨Or.inl rfl,
    C5_error_before_optimizer demoChain demoFrame none none none (some "X") (Or.inl rfl)⟩

theorem recognized_mode_true_of (s : String)
    (h : s = "X" ∨ s = "Y" ∨ s = "Z" ∨ s = "all") :
    recognized_mode (some s) = true := by
  rcases h with h | h | h | h <;> simp [recognized_mode, h]

theorem recognized_mode_false_of (s : String)
    (h : ¬(s = "X" ∨ s = "Y" ∨ s = "Z" ∨ s = "all")) :
    recognized_mode (some s) = false := by
  push_neg at h
  obtain ⟨h1, h2, h3, h4⟩ := h
  simp [recognized_mode, h1, h2, h3, h4]

/-! ### C9: orientation-mode matching is exact and case-sensitive -/

/-- C9: a string mode raises the unknown-orientation-mode error exactly when
it is not one of the four exact strings `"X"`, `"Y"`, `"Z"`, `"all"` (so
`"All"`, `"ALL"`, `"x"`, … are all rejected), and the `None` mode never raises
that error. -/
theorem C9_exact_mode_matching
    (minimize : (List ℝ → Option ℝ) → List ℝ → List (Option ℝ × Option ℝ) → Option ℕ → List ℝ)
    (c : Chain) (target_frame : Frame) (startingOpt : Option (List ℝ))
    (reg : Option ℝ) (max_iter : Option ℕ) (s : String) :
    (inverse_kinematic_optimization minimize c target_frame startingOpt reg max_iter (some s) =
        Except.error (IKError.unknownOrientationMode s) ↔
      ¬(s = "X" ∨ s = "Y" ∨ s = "Z" ∨ s = "all")) ∧
    ∀ e, inverse_kinematic_optimization minimize c target_frame startingOpt reg max_iter none ≠
        Except.error (IKError.unknownOrientationMode e) := by
  constructor
  · constructor
    · intro hres hmem
      obtain ⟨objf, hobj⟩ := optimize_function_eq_some c target_frame (some s)
        (recognized_mode_true_of s hmem)
      cases startingOpt with
      | none =>
        rw [ik_eq_of_missing minimize c target_frame reg max_iter (some s) objf hobj] at hres
        exact IKError.noConfusion (Except.error.inj hres)
      | some starting =>
        rw [ik_eq_of_objf minimize c target_frame starting reg max_iter (some s) objf hobj] at hres
        exact Except.noConfusion hres
    · intro hmem
      have hnone : optimize_function c target_frame (some s) = none := by
        rw [optimize_function_eq_none_iff]
        exact recognized_mode_false_of s hmem
      exact ik_eq_of_unknown minimize c target_frame startingOpt reg max_iter (some s) hnone
  · intro e hres
    cases startingOpt with
    | none =>
      rw [ik_eq_of_missing minimize c target_frame reg max_iter none
        (optimize_function_none c target_frame) rfl] at hres
      exact IKError.noConfusion (Except.error.inj hres)
    | some starting =>
      rw [ik_eq_of_objf minimize c target_frame starting reg max_iter none
        (optimize_function_none c target_frame) rfl] at hres
      exact Except.noConfusion hres

/-! ### C10: the unknown-mode check precedes the missing-starting check -/

/-- C10: with the starting configuration absent AND an unrecognized string
mode, the raised error is the unknown-orientation-mode one; and the
missing-starting-configuration error can only ever surface for a recognized
mode. -/
theorem C10_check_order
    (minimize : (List ℝ → Option ℝ) → List ℝ → List (Option ℝ × Option ℝ) → Option ℕ → List ℝ)
    (c : Chain) (target_frame : Frame) (reg : Option ℝ) (max_iter : Option ℕ) :
    (∀ s : String, ¬(s = "X" ∨ s = "Y" ∨ s = "Z" ∨ s = "all") →
      inverse_kinematic_optimization minimize c target_frame none reg max_iter (some s) =
        Except.error (IKError.unknownOrientationMode s)) ∧
    ∀ (mode : Option String) (startingOpt : Option (List ℝ)),
      inverse_kinematic_optimization minimize c target_frame startingOpt reg max_iter mode =
          Except.error IKError.missingStartingNodesAngles →
        recognized_mode mode = true := by
  constructor
  · intro s hmem
    have hnone : optimize_function c target_frame (some s) = none := by
      rw [optimize_function_eq_none_iff]
      exact recognized_mode_false_of s hmem
    exact ik_eq_of_unknown minimize c target_frame none reg max_iter (some s) hnone
  · intro mode startingOpt hres
    by_cases hm : recognized_mode mode = true
    · exact hm
    · have hnone : optimize_function c target_frame mode = none := by
        rw [optimize_function_eq_none_iff]
        exact Bool.of_not_eq_true hm
      rw [ik_eq_of_unknown minimize c target_frame startingOpt reg max_iter mode hnone] at hres
      exact absurd (Except.error.inj hres) (fun he => IKError.noConfusion he)

/-- C10 witness: with both defects present (`starting` absent, mode `"W"`),
the unknown-orientation-mode error wins. -/
theorem C10_check_order_witness :
    inverse_kinematic_optimization demoMinimize demoChain demoFrame none none none (some "W") =
      Except.error (IKError.unknownOrientationMode "W") :=
  (C10_check_order demoMinimize demoChain demoFrame none none).1 "W" (by decide)

/-! ### C1: how position and orientation errors are combined -/

theorem demo_position_error : position_error demoChain demoFrame demoStart demoX = 2 := by
  unfold position_error optimize_target_function
  simp only [demoChain, demoFrame, demoPose, norm3]
  rw [Fin.sum_univ_three]
  norm_num
  rw [show (4 : ℝ) = 2 ^ 2 by norm_num]
  exact Real.sqrt_sq (by norm_num)

/-- C1 counterexample: at a concrete evaluation with orientation mode `None`
and position error 2, the base objective is 2, not the claimed
`positionError² + ORIENTATION_COEFF × orientationError² = 4`: the source adds
the plain norms, it never squares them. -/
theorem C1_counterexample :
    base_value demoChain demoFrame none demoStart demoX ≠
      some (position_error demoChain demoFrame demoStart demoX ^ 2 +
        ORIENTATION_COEFF *
          spec_orientation_error demoChain demoFrame none demoStart demoX ^ 2) := by
  have hbv : base_value demoChain demoFrame none demoStart demoX =
      some (position_error demoChain demoFrame demoStart demoX) := rfl
  rw [hbv, demo_position_error]
  have hso : spec_orientation_error demoChain demoFrame none demoStart demoX = 0 := rfl
  rw [hso]
  simp only [ORIENTATION_COEFF, ne_eq, Option.some.injEq]
  norm_num

/-- C1 (amended): for every recognized orientation mode, the base objective
equals `positionError + ORIENTATION_COEFF × orientationError` — the plain
(unsquared) position error plus `ORIENTATION_COEFF` (the fixed process-wide
constant 1) times the plain (unsquared) selected orientation metric, the
metric being 0 when the mode is `None`. -/
theorem C1_base_objective (c : Chain) (target_frame : Frame) (mode : Option String)
    (starting x : List ℝ) (h : recognized_mode mode = true) :
    ORIENTATION_COEFF = 1 ∧
    base_value c target_frame mode starting x =
      some (position_error c target_frame starting x +
        ORIENTATION_COEFF * spec_orientation_error c target_frame mode starting x) := by
  refine ⟨rfl, ?_⟩
  cases mode with
  | none =>
    show some (position_error c target_frame starting x) =
      some (position_error c target_frame starting x + ORIENTATION_COEFF * 0)
    norm_num
  | some s =>
    by_cases h1 : s = "X"
    · subst h1; rfl
    · by_cases h2 : s = "Y"
      · subst h2; rfl
      · by_cases h3 : s = "Z"
        · subst h3; rfl
        · by_cases h4 : s = "all"
          · subst h4; rfl
          · have := recognized_mode_false_of s (by simp [h1, h2, h3, h4])
            rw [this] at h
            exact absurd h (by simp)

/-- C1 witness: the amended combination rule evaluated at mode `"X"` on the
demo chain. -/
theorem C1_base_objective_witness :
    recognized_mode (some "X") = true ∧
    (ORIENTATION_COEFF = 1 ∧
      base_value demoChain demoFrame (some "X") demoStart demoX =
        some (position_error demoChain demoFrame demoStart demoX +
          ORIENTATION_COEFF *
            spec_orientation_error demoChain demoFrame (some "X") demoStart demoX)) :=
  ⟨by decide, C1_base_objective demoChain demoFrame (some "X") demoStart demoX (by decide)⟩

/-! ### C2: forward-kinematics invocations per objective evaluation -/

/-- C2 counterexample: with orientation mode `"X"`, one evaluation of the base
objective invokes the forward-kinematics collaborator twice (once inside
`optimize_target_function` and once more inside `get_orientation`), not once. -/
theorem C2_counterexample :
    fk_calls demoChain demoFrame (some "X") demoStart demoX ≠ some 1 := by
  have h2 : fk_calls demoChain demoFrame (some "X") demoStart demoX = some 2 := rfl
  rw [h2]
  simp

/-- C2 (amended): per objective evaluation the forward-kinematics collaborator
is invoked exactly once when the orientation mode is `None`, and exactly twice
under every other recognized mode (`"X"`, `"Y"`, `"Z"`, `"all"`). -/
theorem C2_fk_calls (c : Chain) (target_frame : Frame) (mode : Option String)
    (starting x : List ℝ) (h : recognized_mode mode = true) :
    fk_calls c target_frame mode starting x =
      some (if mode = none then 1 else 2) := by
  cases mode with
  | none => rfl
  | some s =>
    by_cases h1 : s = "X"
    · subst h1; rfl
    · by_cases h2 : s = "Y"
      · subst h2; rfl
      · by_cases h3 : s = "Z"
        · subst h3; rfl
        · by_cases h4 : s = "all"
          · subst h4; rfl
          · have := recognized_mode_false_of s (by simp [h1, h2, h3, h4])
            rw [this] at h
            exact absurd h (by simp)

/-- C2 witness: the amended invocation count evaluated at mode `"X"`. -/
theorem C2_fk_calls_witness :
    recognized_mode (some "X") = true ∧
    fk_calls demoChain demoFrame (some "X") demoStart demoX =
      some (if (some "X" : Option String) = none then 1 else 2) :=
  ⟨by decide, C2_fk_calls demoChain demoFrame (some "X") demoStart demoX (by decide)⟩

/-! ### C8: which pose slices each orientation mode compares -/

/-- C8: the objective's orientation term per mode — `"X"`/`"Y"`/`"Z"` compare
rotation columns 0/1/2 of the computed frame against the same column of the
target frame under the Euclidean norm of the 3-vector difference, `"all"`
compares the full 3×3 rotation blocks under the Frobenius norm of the matrix
difference, and with mode `None` the orientation term is omitted entirely. -/
theorem C8_orientation_slices (c : Chain) (target_frame : Frame) (starting x : List ℝ) :
    (base_value c target_frame (some "X") starting x =
      some (position_error c target_frame starting x + ORIENTATION_COEFF *
        norm3 (fun i => c.forward_kinematics (c.active_to_full x starting) i.castSucc 0 -
          target_frame i.castSucc 0))) ∧
    (base_value c target_frame (some "Y") starting x =
      some (position_error c target_frame starting x + ORIENTATION_COEFF *
        norm3 (fun i => c.forward_kinematics (c.active_to_full x starting) i.castSucc 1 -
          target_frame i.castSucc 1))) ∧
    (base_value c target_frame (some "Z") starting x =
      some (position_error c target_frame starting x + ORIENTATION_COEFF *
        norm3 (fun i => c.forward_kinematics (c.active_to_full x starting) i.castSucc 2 -
          target_frame i.castSucc 2))) ∧
    (base_value c target_frame (some "all") starting x =
      some (position_error c target_frame starting x + ORIENTATION_COEFF *
        normF (fun i j => c.forward_kinematics (c.active_to_full x starting) i.castSucc j.castSucc -
          target_frame i.castSucc j.castSucc))) ∧
    base_value c target_frame none starting x =
      some (position_error c target_frame starting x) :=
  ⟨rfl, rfl, rfl, rfl, rfl⟩

/-! ### C3: the regularization term's reference vector -/

/-- C3: on a chain whose active mask is `[true, true, false]` — an inactive
link after the first active one — the regularized objective evaluation fails
(`none`, numpy's shape error): the source regularizes against the tail slice
`starting_nodes_angles[chain.first_active_joint:]` of length 3, not against
the active-subset reduction of the claim, under which the term
`‖x − reduce(startingFull)‖` would be well-defined (both of length 2). -/
theorem C3_regularization_shape_bug :
    optimize_total regChain regStart (some 1)
        (optimize_function_none regChain demoFrame) regX = none ∧
    (np_sub regX (regChain.active_from_full regStart)).isSome = true ∧
    regChain.active_from_full regStart ≠ regStart.drop regChain.first_active_joint := by
  refine ⟨rfl, rfl, ?_⟩
  intro h
  exact absurd (congrArg List.length h) (by decide)
